import Mathlib

/-!
Shallow embedding of the sage_libgap workspace-staleness subsystem
(`src/sage_libgap/saved_workspace.py`) and of the engine locator it depends
on (`src/sage_libgap/env.py`).

Modelling choices:
* Python floats returned by `os.path.getmtime` are modelled as rationals
  (`ℚ`); only comparisons and `max` are ever applied to them, so any dense
  linear order is faithful.  The special value `float('inf')` returned by
  `timestamp()` on an empty candidate set is modelled as `⊤` in `WithTop ℚ`.
* The filesystem is an explicit snapshot (`FS`): `glob.glob(dir + "/*")`
  becomes `entries dir`, `os.path.getmtime p` becomes `mtime p` (which can
  fail with an `OSErr`, modelling `OSError`), and `pathlib.Path(p).exists()`
  becomes `pathExists p`.
* The collaborator `gap_workspace_file` (imported from
  `sage_libgap.interfaces.gap_workspace`, outside this repository's core) is
  an opaque function parameter, exactly as the spec treats it.
* Module-level globals (`__file__` directory, `GAP_ROOT_PATHS`, the process
  environment) become explicit parameters so that one definition covers
  every process state.
-/

/-- Accumulator form of Python `str.split(sep)` over the character list of
the string: `cur` is the (reversed) current chunk and `acc` the (reversed)
finished chunks. -/
def splitAux (sep : Char) : List Char → List Char → List String → List String
  | [], cur, acc => (String.mk cur.reverse :: acc).reverse
  | c :: rest, cur, acc =>
    if c == sep then splitAux sep rest [] (String.mk cur.reverse :: acc)
    else splitAux sep rest (c :: cur) acc

/-- Python `s.split(sep)` for a one-character separator, including the empty
segments produced by leading, trailing or doubled separators; in particular
the split of the empty string is `[""]`. -/
def pySplit (s : String) (sep : Char) : List String :=
  splitAux sep s.toList [] []

/-- Python `pathlib.Path(p).parent` for the posix path strings used here:
the path with its last component removed. -/
def parentDir (p : String) : String :=
  String.intercalate "/" (pySplit p '/').dropLast

/-- Kinds of `OSError` a filesystem metadata probe (`os.path.getmtime`) can
raise.  Python subclasses such as `FileNotFoundError` and `PermissionError`
are all instances of `OSError`, so an `except OSError` clause catches every
one of them. -/
inductive OSErr where
  | fileNotFound
  | permissionDenied
  | interrupted
deriving DecidableEq

/-- Snapshot of the filesystem state observed during one call:
`entries dir` is `glob.glob(dir + "/*")` (the immediate entries of `dir`),
`mtime p` is `os.path.getmtime(p)` (or the `OSError` the probe raises), and
`pathExists p` is `pathlib.Path(p).exists()`.  Keeping `entries` and
`mtime` independent lets one snapshot express a file listed by the glob
whose later probe fails — a file that vanished in between. -/
structure FS where
  entries : String → List String
  mtime : String → Except OSErr ℚ
  pathExists : String → Bool

/-- Loop of `saved_workspace.timestamp` collecting `gap_packages`:
`for d in GAP_ROOT_PATHS.split(";"): if d: gap_packages += glob(d/pkg/*)`.
The guard `if d:` is Python string truthiness, i.e. `d` nonempty. -/
def gapPackages (fs : FS) (gapRootPaths : String) : List String :=
  (pySplit gapRootPaths ';').foldl
    (fun acc d => if d ≠ "" then acc ++ fs.entries (d ++ "/pkg") else acc) []

/-- Directories for which the loop of `saved_workspace.timestamp` performs a
package-directory glob: the same traversal and guard as `gapPackages`,
recording the directory `d` instead of the glob result. -/
def pkgLookupDirs (gapRootPaths : String) : List String :=
  (pySplit gapRootPaths ';').foldl
    (fun acc d => if d ≠ "" then acc ++ [d] else acc) []

/-- Tail of Python `max(map(os.path.getmtime, files))`: probe each file in
order, propagating the first `OSError` raised (the `map` is lazy, so `max`
sees the probes one at a time), otherwise keep the running maximum. -/
def probeFold (fs : FS) : ℚ → List String → Except OSErr ℚ
  | acc, [] => Except.ok acc
  | acc, f :: rest =>
    match fs.mtime f with
    | Except.error e => Except.error e
    | Except.ok t => probeFold fs (max acc t) rest

/-- Observable outcome of one `timestamp()` call: the diagnostic lines
printed and the value — a Unix time, with `⊤` standing for the
`float('inf')` returned when no candidate file is found, or the `OSError` a
probe raised. -/
structure TimestampOut where
  diagnostics : List String
  result : Except OSErr (WithTop ℚ)

/-- Embedding of `saved_workspace.timestamp`.  `libgapDir` is
`os.path.dirname(__file__)` and `gapRootPaths` the module-level
`GAP_ROOT_PATHS` string.  The candidate files are the entries of
`libgapDir` followed by the package directories; the empty-candidate guard
`if len(files) == 0` is the `[]` branch of the match. -/
def timestamp (fs : FS) (libgapDir gapRootPaths : String) : TimestampOut :=
  match fs.entries libgapDir ++ gapPackages fs gapRootPaths with
  | [] => ⟨["Unable to find LibGAP files."], Except.ok ⊤⟩
  | f :: rest =>
    ⟨[], match fs.mtime f with
         | Except.error e => Except.error e
         | Except.ok t => (probeFold fs t rest).map (fun q => (q : WithTop ℚ))⟩

/-- Embedding of `saved_workspace.workspace`.  `gap_workspace_file` is the
external path-naming collaborator; the source calls it with kind
`"libgap"`.  Only the probe of the workspace file itself is inside the
`try/except OSError` block; the `timestamp()` call sits in the final
`return` statement, outside it, so an `OSError` escaping `timestamp()`
propagates to the caller. -/
def workspace (fs : FS) (libgapDir gapRootPaths : String)
    (gap_workspace_file : String → String → String) (name : String) :
    Except OSErr (String × Bool) :=
  match fs.mtime (gap_workspace_file "libgap" name) with
  | Except.error _ => Except.ok (gap_workspace_file "libgap" name, false)
  | Except.ok workspace_mtime =>
    match (timestamp fs libgapDir gapRootPaths).result with
    | Except.error e => Except.error e
    | Except.ok ts =>
      Except.ok (gap_workspace_file "libgap" name,
        decide ((workspace_mtime : WithTop ℚ) ≥ ts))

/-- Process environment as consumed by `env.py`: the result of
`shutil.which("gap")` and the mapping `os.environ.get`. -/
structure Env where
  whichGap : Option String
  getenv : String → Option String

/-- Configuration failures of the engine locator — the spec's
`ConfigurationError` taxonomy.  `find_gap` raises `ValueError` when no
candidate root can be found and `AssertionError` (from a failing `assert`)
when a candidate root lacks a required sub-resource. -/
inductive ConfigurationError where
  | valueError (msg : String)
  | assertionError (msg : String)

/-- Message of the `ValueError` raised by `env.find_gap` when GAP is found
neither on the PATH nor through the `GAP_ROOT` environment variable. -/
def gapNotFoundMsg : String :=
  "GAP not found. Either add the GAP folder to the PATH, or set the GAP_ROOT environment variable (if using Unix, do not forget to use the `export` shell command) to point to it."

/-- Message of the failing `assert` when `gap_root/lib/init.g` is missing;
it names the missing resource and the path where it was expected. -/
def libMissingMsg (gap_root : String) : String :=
  "Folder `lib` with the GAP `init.g` file not found. Expected it in "
    ++ gap_root ++ "/lib"

/-- Message of the failing `assert` when `gap_root/pkg` is missing; it names
the missing resource and the path where it was expected. -/
def pkgMissingMsg (gap_root : String) : String :=
  "Folder with the GAP packages not found. Expected it in "
    ++ gap_root ++ "/pkg"

/-- Validation half of `env.find_gap`: the two `assert` statements checking
`lib/init.g` and then `pkg` under the candidate root, in source order. -/
def checkGapRoot (fs : FS) (gap_root : String) : Except ConfigurationError String :=
  if fs.pathExists (gap_root ++ "/lib/init.g") then
    if fs.pathExists (gap_root ++ "/pkg") then Except.ok gap_root
    else Except.error (ConfigurationError.assertionError (pkgMissingMsg gap_root))
  else Except.error (ConfigurationError.assertionError (libMissingMsg gap_root))

/-- Embedding of `env.find_gap`: take the parent directory of the
`which("gap")` result if there is one, else the `GAP_ROOT` environment
variable, else raise `ValueError`; then validate the candidate root. -/
def find_gap (env : Env) (fs : FS) : Except ConfigurationError String :=
  match env.whichGap with
  | none =>
    match env.getenv "GAP_ROOT" with
    | none => Except.error (ConfigurationError.valueError gapNotFoundMsg)
    | some gap_root_str => checkGapRoot fs gap_root_str
  | some gap_exec => checkGapRoot fs (parentDir gap_exec)

/-- Candidate engine root that `find_gap` goes on to validate: the parent
directory of the `which("gap")` result, else the `GAP_ROOT` environment
variable. -/
def candidateRoot (env : Env) : Option String :=
  match env.whichGap with
  | none => env.getenv "GAP_ROOT"
  | some gap_exec => some (parentDir gap_exec)

/-- Module-level initialisation of `GAP_ROOT_PATHS` in `env.py`:
`os.environ.get("GAP_ROOT_PATHS", None) or find_gap().as_posix()`.
Python `or` yields the left operand only when it is truthy, i.e. a nonempty
string.  The `Bool` in the result records whether `find_gap` was invoked,
making "bypasses locator computation" observable. -/
def gapRootPathsInit (env : Env) (fs : FS) :
    Except ConfigurationError (String × Bool) :=
  match env.getenv "GAP_ROOT_PATHS" with
  | some v =>
    if v = "" then (find_gap env fs).map (fun root => (root, true))
    else Except.ok (v, false)
  | none => (find_gap env fs).map (fun root => (root, true))

/-- Check that the pattern is a leading run of the character list. -/
def leadsWith : List Char → List Char → Bool
  | _, [] => true
  | [], _ :: _ => false
  | c :: s, p :: ps => c == p && leadsWith s ps

/-- Check that the pattern occurs somewhere in the character list. -/
def occursIn (pat : List Char) : List Char → Bool
  | [] => pat.isEmpty
  | c :: rest => leadsWith (c :: rest) pat || occursIn pat rest

/-- Substring test on strings, used to state that an error message describes
a given remediation. -/
def containsSubstr (s pat : String) : Bool := occursIn pat.toList s.toList

/-- Fixture: filesystem with no entries, no probeable files, no paths. -/
def fsEmpty : FS :=
  ⟨fun _ => [], fun _ => Except.error OSErr.fileNotFound, fun _ => false⟩

/-- Fixture for the enumeration/probe race: the glob of `/lg` lists two
files, but the probe of `/lg/a` raises `FileNotFoundError` — the file
vanished between enumeration and probe — while `/lg/b` still has
modification time 5. -/
def fsRace : FS :=
  ⟨fun d => if d = "/lg" then ["/lg/a", "/lg/b"] else [],
   fun p => if p = "/lg/a" then Except.error OSErr.fileNotFound else Except.ok 5,
   fun _ => false⟩

/-- Fixture before a touch: `/lg` holds `a` (mtime 3) and `b` (mtime 7). -/
def fsTouchA : FS :=
  ⟨fun d => if d = "/lg" then ["/lg/a", "/lg/b"] else [],
   fun p => if p = "/lg/a" then Except.ok 3 else Except.ok 7,
   fun _ => false⟩

/-- Fixture after the touch: same entries, `a` touched to mtime 9. -/
def fsTouchB : FS :=
  ⟨fun d => if d = "/lg" then ["/lg/a", "/lg/b"] else [],
   fun p => if p = "/lg/a" then Except.ok 9 else Except.ok 7,
   fun _ => false⟩

/-- Fixture for the freshness boundary: every probe answers mtime 5, so the
workspace file's mtime equals the computed freshness timestamp exactly. -/
def fsBoundary : FS :=
  ⟨fun d => if d = "/lg" then ["/lg/a"] else [],
   fun _ => Except.ok 5,
   fun _ => false⟩

/-- Fixture collaborator: every workspace file is at `/ws`. -/
def wsResolver : String → String → String := fun _ _ => "/ws"

/-- Fixture: the workspace file `/ws` does not exist, support files do. -/
def fsNoWs : FS :=
  ⟨fun d => if d = "/lg" then ["/lg/a"] else [],
   fun p => if p = "/ws" then Except.error OSErr.fileNotFound else Except.ok 5,
   fun _ => false⟩

/-- Fixture: probing the workspace file `/ws` fails with a permission
error, support files exist. -/
def fsPerm : FS :=
  ⟨fun d => if d = "/lg" then ["/lg/a"] else [],
   fun p => if p = "/ws" then Except.error OSErr.permissionDenied else Except.ok 5,
   fun _ => false⟩

/-- Fixture: `which("gap")` fails and no environment variable is set. -/
def envNone : Env := ⟨none, fun _ => none⟩

/-- Fixture: `which("gap")` resolves to `/opt/gap/gap`, no variables set. -/
def envWhich : Env := ⟨some "/opt/gap/gap", fun _ => none⟩

/-- Fixture: `which("gap")` resolves to `/opt/gap/gap` and `GAP_ROOT_PATHS`
is set to the empty string. -/
def envEmptyVar : Env :=
  ⟨some "/opt/gap/gap",
   fun k => if k = "GAP_ROOT_PATHS" then some "" else none⟩

/-- Fixture: only `GAP_ROOT_PATHS` is set, to `/a;/b`. -/
def envVarSet : Env :=
  ⟨none, fun k => if k = "GAP_ROOT_PATHS" then some "/a;/b" else none⟩

/-- Fixture: a complete GAP installation under `/opt/gap`. -/
def fsGapInstall : FS :=
  ⟨fun _ => [], fun _ => Except.error OSErr.fileNotFound,
   fun p => p == "/opt/gap/lib/init.g" || p == "/opt/gap/pkg"⟩

/-- Unfolding of `timestamp` when the candidate list is empty. -/
theorem timestamp_nil (fs : FS) (dir paths : String)
    (hf : fs.entries dir ++ gapPackages fs paths = []) :
    timestamp fs dir paths = ⟨["Unable to find LibGAP files."], Except.ok ⊤⟩ := by
  unfold timestamp
  rw [hf]

/-- Unfolding of `timestamp` when the candidate list is nonempty. -/
theorem timestamp_cons (fs : FS) (dir paths f : String) (rest : List String)
    (hf : fs.entries dir ++ gapPackages fs paths = f :: rest) :
    timestamp fs dir paths =
      ⟨[], match fs.mtime f with
           | Except.error e => Except.error e
           | Except.ok t => (probeFold fs t rest).map (fun q => (q : WithTop ℚ))⟩ := by
  unfold timestamp
  rw [hf]

/-- Folding a guarded append over a list equals folding the unguarded append
over the list with the empty strings filtered out. -/
theorem foldl_guard_filter (g : String → List String) :
    ∀ (l : List String) (acc : List String),
      l.foldl (fun a d => if d ≠ "" then a ++ g d else a) acc
        = (l.filter (fun d => d ≠ "")).foldl (fun a d => a ++ g d) acc := by
  intro l
  induction l with
  | nil => intro acc; rfl
  | cons d rest ih =>
    intro acc
    by_cases hd : d = ""
    · subst hd
      rw [List.foldl_cons, if_neg (fun h => h rfl), List.filter_cons,
        if_neg (by simp)]
      exact ih acc
    · rw [List.foldl_cons, if_pos hd, List.filter_cons, if_pos (by simp [hd]),
        List.foldl_cons]
      exact ih (acc ++ g d)

/-- Folding singleton appends over a list from an accumulator rebuilds the
accumulator followed by the list. -/
theorem foldl_append_singleton :
    ∀ (l acc : List String), l.foldl (fun a d => a ++ [d]) acc = acc ++ l := by
  intro l
  induction l with
  | nil => intro acc; simp
  | cons d rest ih => intro acc; simp [ih]

/-- Probing a list whose prefix probes succeed and whose next file's probe
fails propagates exactly that failure. -/
theorem probeFold_error (fs : FS) (f : String) (e : OSErr) (l₂ : List String)
    (he : fs.mtime f = Except.error e) :
    ∀ (l₁ : List String) (acc : ℚ),
      (∀ g ∈ l₁, ∃ t, fs.mtime g = Except.ok t) →
      probeFold fs acc (l₁ ++ f :: l₂) = Except.error e := by
  intro l₁
  induction l₁ with
  | nil =>
    intro acc _
    simp only [List.nil_append, probeFold, he]
  | cons g rest ih =>
    intro acc hok
    obtain ⟨t, ht⟩ := hok g (by simp)
    simp only [List.cons_append, probeFold, ht]
    exact ih (max acc t) (fun g' hg' => hok g' (by simp [hg']))

/-- Probing the same list in a second filesystem state whose successful
probes are pointwise at least as late, from an accumulator at least as
large, succeeds again with a result at least as large. -/
theorem probeFold_mono (fs fs2 : FS) :
    ∀ (l : List String),
      (∀ g ∈ l, ∀ s : ℚ, fs.mtime g = Except.ok s →
          ∃ s2 : ℚ, fs2.mtime g = Except.ok s2 ∧ s ≤ s2) →
      ∀ (acc acc2 v : ℚ), acc ≤ acc2 → probeFold fs acc l = Except.ok v →
        ∃ v2, probeFold fs2 acc2 l = Except.ok v2 ∧ v ≤ v2 := by
  intro l
  induction l with
  | nil =>
    intro _ acc acc2 v hacc hv
    simp only [probeFold] at hv
    injection hv with hv
    subst hv
    exact ⟨acc2, rfl, hacc⟩
  | cons g rest ih =>
    intro hR acc acc2 v hacc hv
    cases hm : fs.mtime g with
    | error e =>
      simp only [probeFold, hm] at hv
      exact Except.noConfusion hv
    | ok s =>
      simp only [probeFold, hm] at hv
      obtain ⟨s2, hs2, hss⟩ := hR g (by simp) s hm
      simp only [probeFold, hs2]
      exact ih (fun g' hg' => hR g' (by simp [hg'])) (max acc s) (max acc2 s2) v
        (max_le_max hacc hss) hv

/-- The package-directory collection depends only on the `entries` field of
the filesystem snapshot. -/
theorem gapPackages_congr (fs fs2 : FS) (hent : fs2.entries = fs.entries)
    (s : String) : gapPackages fs2 s = gapPackages fs s := by
  unfold gapPackages
  rw [hent]

/-- Once a candidate root is obtained, `find_gap` is exactly its
validation. -/
theorem find_gap_eq_check (env : Env) (fs : FS) (r : String)
    (hc : candidateRoot env = some r) : find_gap env fs = checkGapRoot fs r := by
  cases hw : env.whichGap with
  | none =>
    cases hg : env.getenv "GAP_ROOT" with
    | none => simp [candidateRoot, hw, hg] at hc
    | some s =>
      simp only [candidateRoot, hw, hg, Option.some.injEq] at hc
      simp [find_gap, hw, hg, hc]
  | some gap_exec =>
    simp only [candidateRoot, hw, Option.some.injEq] at hc
    simp [find_gap, hw, hc]

/-- Claim C1: for every (kind, name) whose workspace file exists at the path
returned by the path resolver, `workspace` returns the pair
`(path, is_fresh)` where `is_fresh` is true if and only if the file's
modification time is greater than or equal to the freshness timestamp
computed at call time; in particular, a modification time exactly equal to
the freshness timestamp counts as fresh (boundary is `>=`, not `>`). -/
theorem workspace_fresh_geq (fs : FS) (libgapDir gapRootPaths : String)
    (gwf : String → String → String) (name : String) (m : ℚ) (ts : WithTop ℚ)
    (hm : fs.mtime (gwf "libgap" name) = Except.ok m)
    (hts : (timestamp fs libgapDir gapRootPaths).result = Except.ok ts) :
    workspace fs libgapDir gapRootPaths gwf name
        = Except.ok (gwf "libgap" name, decide ((m : WithTop ℚ) ≥ ts))
      ∧ ((m : WithTop ℚ) = ts →
          workspace fs libgapDir gapRootPaths gwf name
            = Except.ok (gwf "libgap" name, true)) := by
  have hmain : workspace fs libgapDir gapRootPaths gwf name
      = Except.ok (gwf "libgap" name, decide ((m : WithTop ℚ) ≥ ts)) := by
    unfold workspace
    rw [hm, hts]
  refine ⟨hmain, fun he => ?_⟩
  rw [hmain, he, decide_eq_true_eq.mpr (le_refl ts)]

/-- Claim C1 witness: a workspace file whose modification time equals the
freshness timestamp exactly is reported fresh. -/
theorem workspace_fresh_geq_witness :
    workspace fsBoundary "/lg" "" wsResolver "workspace"
      = Except.ok ("/ws", true) :=
  (workspace_fresh_geq fsBoundary "/lg" "" wsResolver "workspace" 5
    ((5 : ℚ) : WithTop ℚ) rfl rfl).2 rfl

/-- Claim C2: for every (kind, name) and every freshness value, if no file
exists at the resolved workspace path (the modification-time probe raises
`FileNotFoundError`), `workspace` returns `(path, false)` and does not
raise. -/
theorem workspace_missing_file (fs : FS) (libgapDir gapRootPaths : String)
    (gwf : String → String → String) (name : String)
    (hm : fs.mtime (gwf "libgap" name) = Except.error OSErr.fileNotFound) :
    workspace fs libgapDir gapRootPaths gwf name
      = Except.ok (gwf "libgap" name, false) := by
  unfold workspace
  rw [hm]

/-- Claim C2 witness: a missing workspace file yields `(path, false)`. -/
theorem workspace_missing_file_witness :
    workspace fsNoWs "/lg" "" wsResolver "workspace"
      = Except.ok ("/ws", false) :=
  workspace_missing_file fsNoWs "/lg" "" wsResolver "workspace" rfl

/-- Claim C10: `workspace` treats every operating-system error raised by the
modification-time probe of the workspace file — not only nonexistence, but
for example a permission failure — identically: it returns `(path, false)`
and never propagates the probe's error, because the `except OSError` clause
catches every `OSError` subclass. -/
theorem workspace_probe_error_uniform (fs : FS) (libgapDir gapRootPaths : String)
    (gwf : String → String → String) (name : String) (e : OSErr)
    (hm : fs.mtime (gwf "libgap" name) = Except.error e) :
    workspace fs libgapDir gapRootPaths gwf name
      = Except.ok (gwf "libgap" name, false) := by
  unfold workspace
  rw [hm]

/-- Claim C10 witness: a permission failure probing the workspace file is
absorbed exactly like nonexistence. -/
theorem workspace_probe_error_uniform_witness :
    workspace fsPerm "/lg" "" wsResolver "workspace"
      = Except.ok ("/ws", false) :=
  workspace_probe_error_uniform fsPerm "/lg" "" wsResolver "workspace"
    OSErr.permissionDenied rfl

/-- Claim C3: if the candidate file set is empty — no entries in the
own-support directory and no package subdirectories under any search-path
entry — `timestamp` emits the diagnostic message and returns positive
infinity. -/
theorem timestamp_empty_diagnostic (fs : FS) (libgapDir gapRootPaths : String)
    (h1 : fs.entries libgapDir = [])
    (h2 : gapPackages fs gapRootPaths = []) :
    timestamp fs libgapDir gapRootPaths
      = ⟨["Unable to find LibGAP files."], Except.ok ⊤⟩ :=
  timestamp_nil fs libgapDir gapRootPaths (by rw [h1, h2]; rfl)

/-- Claim C3 witness: on an empty filesystem the diagnostic is emitted and
infinity returned. -/
theorem timestamp_empty_diagnostic_witness :
    timestamp fsEmpty "/lg" ""
      = ⟨["Unable to find LibGAP files."], Except.ok ⊤⟩ :=
  timestamp_empty_diagnostic fsEmpty "/lg" "" rfl rfl

/-- Claim C4: for every semicolon-delimited search-path string, including
strings with leading, trailing, or doubled semicolons, the freshness
computation performs a package-directory lookup exactly for the non-empty
segments — the looked-up directories are the split with empty segments
filtered out, and the collected package globs factor through exactly those
lookups, so empty segments never produce a spurious lookup or an error. -/
theorem timestamp_skips_empty_segments (fs : FS) (s : String) :
    pkgLookupDirs s = (pySplit s ';').filter (fun d => d ≠ "")
      ∧ gapPackages fs s
          = (pkgLookupDirs s).foldl
              (fun acc d => acc ++ fs.entries (d ++ "/pkg")) [] := by
  have hdirs : pkgLookupDirs s = (pySplit s ';').filter (fun d => d ≠ "") := by
    unfold pkgLookupDirs
    rw [foldl_guard_filter (fun d => [d]) (pySplit s ';') []]
    rw [foldl_append_singleton ((pySplit s ';').filter (fun d => d ≠ "")) []]
    rfl
  refine ⟨hdirs, ?_⟩
  unfold gapPackages
  rw [foldl_guard_filter (fun d => fs.entries (d ++ "/pkg")) (pySplit s ';') [],
    hdirs]

/-- Claim C4 witness: the search path `";a;;b;"` produces lookups for
exactly `a` and `b`. -/
theorem timestamp_skips_empty_segments_witness :
    pkgLookupDirs ";a;;b;" = ["a", "b"]
      ∧ gapPackages fsEmpty ";a;;b;" = [] := by
  have h := timestamp_skips_empty_segments fsEmpty ";a;;b;"
  refine ⟨?_, ?_⟩
  · rw [h.1]; rfl
  · rw [h.2, h.1]; rfl

/-- Claim C5: if the engine launcher binary is absent from the executable
search path and the root-override environment variable is unset, `find_gap`
fails with the locator's configuration error (`ValueError`) whose message
describes both remediation options — adding the GAP folder to the PATH, or
setting the `GAP_ROOT` variable; it neither crashes in another way nor
returns a path. -/
theorem find_gap_not_found_error (env : Env) (fs : FS)
    (hw : env.whichGap = none) (hr : env.getenv "GAP_ROOT" = none) :
    find_gap env fs = Except.error (ConfigurationError.valueError gapNotFoundMsg)
      ∧ containsSubstr gapNotFoundMsg "add the GAP folder to the PATH" = true
      ∧ containsSubstr gapNotFoundMsg "set the GAP_ROOT environment variable" = true
      ∧ ∀ root, find_gap env fs ≠ Except.ok root := by
  have hmain :
      find_gap env fs
        = Except.error (ConfigurationError.valueError gapNotFoundMsg) := by
    unfold find_gap
    rw [hw, hr]
  refine ⟨hmain, rfl, rfl, fun root h => ?_⟩
  rw [hmain] at h
  exact Except.noConfusion h

/-- Claim C5 witness: with an empty PATH and no override variable the
locator fails with the actionable `ValueError`. -/
theorem find_gap_not_found_error_witness :
    find_gap envNone fsEmpty
      = Except.error (ConfigurationError.valueError gapNotFoundMsg) :=
  (find_gap_not_found_error envNone fsEmpty rfl rfl).1

/-- Claim C6: for every candidate engine root obtained by the locator (from
the search path or from the override variable), if the required
library-init marker file `lib/init.g` or the required packages directory
`pkg` is missing under that root, `find_gap` fails with a configuration
error (`AssertionError`) whose message names the missing resource and the
path where it was expected, and never returns any root. -/
theorem find_gap_invalid_root_rejected (env : Env) (fs : FS) (r : String)
    (hc : candidateRoot env = some r)
    (hbad : fs.pathExists (r ++ "/lib/init.g") = false
      ∨ fs.pathExists (r ++ "/pkg") = false) :
    (find_gap env fs
        = Except.error (ConfigurationError.assertionError (libMissingMsg r))
      ∨ find_gap env fs
        = Except.error (ConfigurationError.assertionError (pkgMissingMsg r)))
      ∧ ∀ root, find_gap env fs ≠ Except.ok root := by
  rw [find_gap_eq_check env fs r hc]
  unfold checkGapRoot
  cases hmark : fs.pathExists (r ++ "/lib/init.g") with
  | false =>
    rw [if_neg (by simp [hmark])]
    exact ⟨Or.inl rfl, fun root h => Except.noConfusion h⟩
  | true =>
    rw [if_pos (by simp [hmark])]
    cases hpkg : fs.pathExists (r ++ "/pkg") with
    | false =>
      rw [if_neg (by simp [hpkg])]
      exact ⟨Or.inr rfl, fun root h => Except.noConfusion h⟩
    | true =>
      rcases hbad with hb | hb
      · rw [hmark] at hb; exact Bool.noConfusion hb
      · rw [hpkg] at hb; exact Bool.noConfusion hb

/-- Claim C6 witness: `which("gap")` points into `/opt/gap` but the
filesystem holds neither `lib/init.g` nor `pkg`, so the locator raises the
assertion naming the missing `lib` marker and returns no root. -/
theorem find_gap_invalid_root_rejected_witness :
    find_gap envWhich fsEmpty
        = Except.error
            (ConfigurationError.assertionError (libMissingMsg "/opt/gap"))
      ∧ find_gap envWhich fsEmpty ≠ Except.ok "/opt/gap" := by
  have h := find_gap_invalid_root_rejected envWhich fsEmpty "/opt/gap" rfl
    (Or.inl rfl)
  exact ⟨rfl, h.2 "/opt/gap"⟩

/-- Result of `timestamp` when the head probe succeeds: the mapped fold of
the remaining probes. -/
theorem timestamp_result_ok (fs : FS) (dir paths g : String)
    (rest : List String) (s : ℚ)
    (hl : fs.entries dir ++ gapPackages fs paths = g :: rest)
    (hm : fs.mtime g = Except.ok s) :
    (timestamp fs dir paths).result
      = (probeFold fs s rest).map (fun q => (q : WithTop ℚ)) := by
  rw [timestamp_cons fs dir paths g rest hl, hm]

/-- Result of `timestamp` when the head probe fails: that failure. -/
theorem timestamp_result_error (fs : FS) (dir paths g : String)
    (rest : List String) (e : OSErr)
    (hl : fs.entries dir ++ gapPackages fs paths = g :: rest)
    (hm : fs.mtime g = Except.error e) :
    (timestamp fs dir paths).result = Except.error e := by
  rw [timestamp_cons fs dir paths g rest hl, hm]

/-- Claim C7 counterexample: in `fsRace` the candidate `/lg/a` is enumerated
but vanished before its probe; `timestamp` neither skips it and proceeds
with the remaining candidate (which would yield time 5) nor raises a
dedicated race error — the repository defines no such error class — it lets
the probe's raw `OSError` escape, refuting the claimed tolerated behaviour. -/
theorem timestamp_race_counterexample :
    (timestamp fsRace "/lg" "").result = Except.error OSErr.fileNotFound
      ∧ (timestamp fsRace "/lg" "").result ≠ Except.ok ((5 : ℚ) : WithTop ℚ) := by
  refine ⟨rfl, fun h => ?_⟩
  have h2 : (Except.error OSErr.fileNotFound : Except OSErr (WithTop ℚ))
      = Except.ok ((5 : ℚ) : WithTop ℚ) := h
  exact Except.noConfusion h2

/-- Claim C7 (amended): if a candidate file vanishes between enumeration
and the metadata probe — all earlier probes succeeding — `timestamp`
propagates that probe's `OSError` to its caller unchanged; it neither skips
the vanished entry nor converts the error. -/
theorem timestamp_propagates_probe_error (fs : FS) (dir paths f : String)
    (e : OSErr) (l₁ l₂ : List String)
    (hfiles : fs.entries dir ++ gapPackages fs paths = l₁ ++ f :: l₂)
    (hok : ∀ g ∈ l₁, ∃ t : ℚ, fs.mtime g = Except.ok t)
    (he : fs.mtime f = Except.error e) :
    (timestamp fs dir paths).result = Except.error e := by
  cases l₁ with
  | nil =>
    exact timestamp_result_error fs dir paths f l₂ e (by simpa using hfiles) he
  | cons g rest =>
    obtain ⟨t, ht⟩ := hok g (by simp)
    rw [timestamp_result_ok fs dir paths g (rest ++ f :: l₂) t
      (by simpa using hfiles) ht]
    rw [probeFold_error fs f e l₂ he rest t (fun g' hg' => hok g' (by simp [hg']))]
    rfl

/-- Claim C7 amended-theorem witness: the probe failure of the vanished
`/lg/a` escapes `timestamp` as the raw `OSError`. -/
theorem timestamp_propagates_probe_error_witness :
    (timestamp fsRace "/lg" "").result = Except.error OSErr.fileNotFound :=
  timestamp_propagates_probe_error fsRace "/lg" "" "/lg/a" OSErr.fileNotFound
    [] ["/lg/b"] rfl (fun g hg => absurd hg (List.not_mem_nil g)) rfl

/-- Claim C8: touching (updating the modification time of, almost surely
upward) any file inside the own-support directory between two calls never
decreases the computed freshness timestamp: whenever both calls return a
value, the second is greater than or equal to the first. -/
theorem timestamp_touch_monotone (fs fs2 : FS) (libgapDir gapRootPaths f : String)
    (t t2 : ℚ) (v v2 : WithTop ℚ)
    (hent : fs2.entries = fs.entries)
    (hothers : ∀ g, g ≠ f → fs2.mtime g = fs.mtime g)
    (hmem : f ∈ fs.entries libgapDir)
    (hold : fs.mtime f = Except.ok t) (hnew : fs2.mtime f = Except.ok t2)
    (ht : t ≤ t2)
    (h1 : (timestamp fs libgapDir gapRootPaths).result = Except.ok v)
    (h2 : (timestamp fs2 libgapDir gapRootPaths).result = Except.ok v2) :
    v ≤ v2 := by
  have hR : ∀ g, ∀ s : ℚ, fs.mtime g = Except.ok s →
      ∃ s2 : ℚ, fs2.mtime g = Except.ok s2 ∧ s ≤ s2 := by
    intro g s hs
    by_cases hg : g = f
    · subst hg
      rw [hold] at hs
      injection hs with hs
      exact ⟨t2, hnew, hs ▸ ht⟩
    · exact ⟨s, by rw [hothers g hg, hs], le_refl s⟩
  have hfe : fs2.entries libgapDir ++ gapPackages fs2 gapRootPaths
      = fs.entries libgapDir ++ gapPackages fs gapRootPaths := by
    rw [hent, gapPackages_congr fs fs2 hent gapRootPaths]
  cases hl : fs.entries libgapDir ++ gapPackages fs gapRootPaths with
  | nil =>
    have hnil : fs.entries libgapDir = [] := (List.append_eq_nil.mp hl).1
    rw [hnil] at hmem
    cases hmem
  | cons g rest =>
    cases hm1 : fs.mtime g with
    | error e =>
      rw [timestamp_result_error fs libgapDir gapRootPaths g rest e hl hm1] at h1
      exact Except.noConfusion h1
    | ok s =>
      obtain ⟨s2, hs2, hss⟩ := hR g s hm1
      rw [timestamp_result_ok fs libgapDir gapRootPaths g rest s hl hm1] at h1
      rw [timestamp_result_ok fs2 libgapDir gapRootPaths g rest s2
        (hfe.trans hl) hs2] at h2
      cases hp1 : probeFold fs s rest with
      | error e =>
        rw [hp1] at h1
        have h1e : (Except.error e : Except OSErr (WithTop ℚ)) = Except.ok v := h1
        exact Except.noConfusion h1e
      | ok q =>
        rw [hp1] at h1
        obtain ⟨q2, hq2, hqq⟩ := probeFold_mono fs fs2 rest
          (fun g' _ s' hs' => hR g' s' hs') s s2 q hss hp1
        rw [hq2] at h2
        have h1q : (Except.ok ((q : WithTop ℚ)) : Except OSErr (WithTop ℚ))
            = Except.ok v := h1
        have h2q : (Except.ok ((q2 : WithTop ℚ)) : Except OSErr (WithTop ℚ))
            = Except.ok v2 := h2
        injection h1q with h1q
        injection h2q with h2q
        rw [← h1q, ← h2q]
        exact WithTop.coe_le_coe.mpr hqq

/-- Claim C8 witness: touching `/lg/a` from mtime 3 up to 9 moves the
freshness timestamp from 7 up to 9, never down. -/
theorem timestamp_touch_monotone_witness :
    (timestamp fsTouchA "/lg" "").result = Except.ok ((7 : ℚ) : WithTop ℚ)
      ∧ (timestamp fsTouchB "/lg" "").result = Except.ok ((9 : ℚ) : WithTop ℚ)
      ∧ ((7 : ℚ) : WithTop ℚ) ≤ ((9 : ℚ) : WithTop ℚ) := by
  refine ⟨rfl, rfl, ?_⟩
  exact timestamp_touch_monotone fsTouchA fsTouchB "/lg" "" "/lg/a" 3 9
    ((7 : ℚ) : WithTop ℚ) ((9 : ℚ) : WithTop ℚ) rfl
    (fun g hg => by simp [fsTouchA, fsTouchB, hg])
    (by simp [fsTouchA]) rfl rfl (by norm_num) rfl rfl

/-- Claim C9 counterexample: with `GAP_ROOT_PATHS` set (to the empty
string) in the environment, the initialiser still invokes `find_gap` —
Python `or` treats the empty string as falsy — so the locator is not
bypassed and the variable's value is not used as the search path. -/
theorem gapRootPaths_empty_value_counterexample :
    envEmptyVar.getenv "GAP_ROOT_PATHS" = some ""
      ∧ gapRootPathsInit envEmptyVar fsGapInstall
          = Except.ok ("/opt/gap", true)
      ∧ gapRootPathsInit envEmptyVar fsGapInstall ≠ Except.ok ("", false) := by
  refine ⟨rfl, rfl, fun h => ?_⟩
  have h2 : (Except.ok (("/opt/gap", true)) : Except ConfigurationError (String × Bool))
      = Except.ok ("", false) := h
  injection h2 with h2
  simp at h2

/-- Claim C9 (amended): whenever the search-path environment variable
`GAP_ROOT_PATHS` is set to a nonempty value, that value is used as the
search path and `find_gap` is bypassed entirely; when it is set to the
empty string the locator still runs. -/
theorem gapRootPaths_nonempty_bypasses (env : Env) (fs : FS) (v : String)
    (hv : env.getenv "GAP_ROOT_PATHS" = some v) (hne : v ≠ "") :
    gapRootPathsInit env fs = Except.ok (v, false) := by
  simp only [gapRootPathsInit, hv]
  rw [if_neg hne]

/-- Claim C9 amended-theorem witness: a nonempty `GAP_ROOT_PATHS` value is
taken verbatim with the locator bypassed. -/
theorem gapRootPaths_nonempty_bypasses_witness :
    gapRootPathsInit envVarSet fsEmpty = Except.ok ("/a;/b", false) :=
  gapRootPaths_nonempty_bypasses envVarSet fsEmpty "/a;/b" rfl (by decide)
